import Mathlib

/-!
# Verification of the imu.rs telemetry pipeline

Shallow embedding of the core of the imu.rs repository: the length-prefixed
framed transport (write and read side), the publisher retry policy, the IMU
emulator's target-seeking step, and the motion estimator
(orientation / velocity / position fusion).

Conventions of the embedding:
* `u32` values (timestamps, lengths, counters) are modelled as `ℕ`;
  `u32::saturating_sub` coincides with truncated `ℕ` subtraction.
* `i32` values are modelled as `ℤ`.
* `f32` arithmetic is modelled as exact arithmetic over `ℚ` where the source
  only adds, multiplies and compares, and over `ℝ` where the source uses
  square roots and trigonometric functions; float literals such as `0.001`
  denote the corresponding exact rationals.
* A byte stream read from the socket is a finite `List ℕ` of byte values;
  reaching the end of the list is end-of-stream (tokio reports
  `UnexpectedEof` both when zero and when 1-3 bytes of a 4-byte read were
  available, which the embedding reflects by treating every list of length
  `< 4` alike).
* The protobuf codec is external to the core (generated code); the read loop
  treats it as an opaque `decode : List ℕ → Option α`, exactly as
  `Consumer::run` only matches on the `Result` of `ImuData::decode`.
-/

namespace ImuRs

/-! ## Read side framing loop (src/consumer/src/consumer.rs, `Consumer::run`) -/

/-- Exit status of the read loop: `Ok(())` after a clean EOF while reading the
4-byte length field, or the propagated I/O error after an EOF in the middle of
a message body (`read_exact` failing with `UnexpectedEof`). -/
inductive ExitStatus where
  | cleanEof
  | truncatedFrame
deriving DecidableEq, Repr

/-- Big-endian 32-bit value of four bytes, as read by `reader.read_u32()`. -/
def beU32 (b0 b1 b2 b3 : ℕ) : ℕ := ((b0 * 256 + b1) * 256 + b2) * 256 + b3

/-- The four big-endian bytes of a `u32` length, as written by the publisher's
`(buf.len() as u32).to_be_bytes()`. -/
def beBytes (n : ℕ) : List ℕ :=
  [n / 2 ^ 24 % 256, n / 2 ^ 16 % 256, n / 2 ^ 8 % 256, n % 256]

/-- The receive loop of `Consumer::run` (consumer.rs lines 55-102) on a finite
byte stream: read a 4-byte big-endian length (EOF here, i.e. fewer than 4
bytes left, is clean termination); skip zero lengths; otherwise read exactly
that many payload bytes (EOF inside is a truncated frame, an error) and hand
them to `decode`; a decoded sample is appended to the list handed to
`MotionProcessor::process`, a decode failure is logged and skipped.  Returns
the samples handed to the motion processor, in order, and the exit status. -/
def readLoop {α : Type} (decode : List ℕ → Option α) : List ℕ → List α × ExitStatus
  | b0 :: b1 :: b2 :: b3 :: rest =>
    if beU32 b0 b1 b2 b3 = 0 then
      readLoop decode rest
    else if rest.length < beU32 b0 b1 b2 b3 then
      ([], ExitStatus.truncatedFrame)
    else
      match decode (rest.take (beU32 b0 b1 b2 b3)) with
      | some sample =>
        let r := readLoop decode (rest.drop (beU32 b0 b1 b2 b3))
        (sample :: r.1, r.2)
      | none => readLoop decode (rest.drop (beU32 b0 b1 b2 b3))
  | _ => ([], ExitStatus.cleanEof)
termination_by bytes => bytes.length
decreasing_by
  all_goals simp [List.length_drop]
  all_goals omega

/-- Spec-side predicate, following the spec's words for claim C5: the byte
stream ends exactly at a frame boundary, with zero bytes of a next 4-byte
length field present (every frame, zero-length frames included, is complete
and the stream ends right after the last one). -/
def specEndsAtBoundary : List ℕ → Bool
  | [] => true
  | b0 :: b1 :: b2 :: b3 :: rest =>
    if beU32 b0 b1 b2 b3 = 0 then
      specEndsAtBoundary rest
    else if rest.length < beU32 b0 b1 b2 b3 then
      false
    else
      specEndsAtBoundary (rest.drop (beU32 b0 b1 b2 b3))
  | _ => false
termination_by bytes => bytes.length
decreasing_by
  all_goals simp [List.length_drop]
  all_goals omega

/-- The condition under which the code's read loop actually terminates
cleanly: the stream ends while a 4-byte length field is being read, i.e.
after a sequence of complete frames there are between 0 and 3 further bytes.
This is wider than `specEndsAtBoundary`, which demands exactly 0. -/
def specEndsInLengthField : List ℕ → Bool
  | b0 :: b1 :: b2 :: b3 :: rest =>
    if beU32 b0 b1 b2 b3 = 0 then
      specEndsInLengthField rest
    else if rest.length < beU32 b0 b1 b2 b3 then
      false
    else
      specEndsInLengthField (rest.drop (beU32 b0 b1 b2 b3))
  | _ => true
termination_by bytes => bytes.length
decreasing_by
  all_goals simp [List.length_drop]
  all_goals omega

/-- A concrete decoder used to instantiate the decode-parametric read loop in
closed statements; it decodes the single-byte payload `[7]` to the sample `99`
and rejects everything else. -/
def sampleDecode : List ℕ → Option ℕ :=
  fun p => if p = [7] then some 99 else none

/-! ## Consumer connect timeout (consumer.rs `Consumer::new`, common cli) -/

/-- `DEFAULT_TIMEOUT` from src/common/src/cli_defaults.rs line 6: the string
"1000", documented there as milliseconds, parsed by clap into a `u32` with
range `1..=60*1000`. -/
def DEFAULT_TIMEOUT : ℕ := 1000

/-- The duration, expressed in milliseconds, that `Consumer::new`
(consumer.rs lines 20-29) builds from the CLI `timeout` argument and that
bounds the connect attempt in `Consumer::run`: the code calls
`Duration::from_secs(timeout.into())`, i.e. it interprets the
milliseconds-documented value as seconds, which is `1000 * timeout`
milliseconds. -/
def consumerConnectBoundMillis (timeout : ℕ) : ℕ := timeout * 1000

/-! ## Write side retry policy (src/publisher/src/publisher.rs) -/

/-- The kind of a `std::io::Error`, as far as `Publisher::run` inspects it:
it only tests `e.kind() == io::ErrorKind::BrokenPipe`. -/
inductive IoErrorKind where
  | brokenPipe
  | otherKind
deriving DecidableEq, Repr

/-- `MAX_CONSECUTIVE_ERRORS` from publisher.rs line 124. -/
def MAX_CONSECUTIVE_ERRORS : ℕ := 5

/-- The send loop of `Publisher::publish_data` (publisher.rs lines 126-154),
abstracted over a finite trace of per-tick send outcomes (`true` = this
tick's `send_message` succeeded).  A success resets `consecutive_errors` to
0; a failure increments it, and when the incremented counter reaches
`MAX_CONSECUTIVE_ERRORS` the loop returns the "Connection broken" error of
kind `BrokenPipe`, otherwise it backs off 100 ms and continues.  The real
loop never exits on its own; `Except.ok c` means the loop is still running
with counter `c` after consuming the whole trace. -/
def publishData : ℕ → List Bool → Except IoErrorKind ℕ
  | c, [] => Except.ok c
  | _, true :: rest => publishData 0 rest
  | c, false :: rest =>
    if c + 1 ≥ MAX_CONSECUTIVE_ERRORS then
      Except.error IoErrorKind.brokenPipe
    else
      publishData (c + 1) rest

/-- What the outer loop of `Publisher::run` (publisher.rs lines 160-189) does
with the result of `publish_data`. -/
inductive RunAction where
  | acceptNew
  | exitOk
  | exitErr
deriving DecidableEq, Repr

/-- The match in `Publisher::run` on `publish_data`'s result: `Ok` breaks the
loop and `run` returns `Ok`; an error of kind `BrokenPipe` logs "Consumer
disconnected, waiting for new connection" and continues accepting; any other
error is returned, terminating the process. -/
def runReaction : Except IoErrorKind ℕ → RunAction
  | Except.ok _ => RunAction.exitOk
  | Except.error IoErrorKind.brokenPipe => RunAction.acceptNew
  | Except.error IoErrorKind.otherKind => RunAction.exitErr

/-! ## Emulator target-seeking step (src/publisher/src/imu_emulator.rs) -/

/-- `ALPHA` from imu_emulator.rs line 15, the low-pass filter coefficient. -/
def ALPHA : ℚ := 7 / 10

/-- Truncation toward zero, the semantics of Rust's `as i32` cast on an
in-range value. -/
def truncQ (x : ℚ) : ℤ := if 0 ≤ x then ⌊x⌋ else ⌈x⌉

/-- `ImuEmulator::move_toward_target_float` (imu_emulator.rs lines 164-174):
snap to the target when within `max_change` of it, otherwise step by
`±max_change` and blend the stepped value with the previous one using the
fixed weight `ALPHA`. -/
def moveTowardTargetFloat (current target maxChange : ℚ) : ℚ :=
  if |target - current| ≤ maxChange then target
  else
    ALPHA * (current + (if target - current > 0 then maxChange else -maxChange))
      + (1 - ALPHA) * current

/-- `ImuEmulator::move_toward_target_int` (imu_emulator.rs lines 176-186):
the integer variant, computing the blend in float and casting back with
`as i32` (truncation toward zero). -/
def moveTowardTargetInt (current target maxChange : ℤ) : ℤ :=
  if |target - current| ≤ maxChange then target
  else
    truncQ (ALPHA * ((current : ℚ) + (if target - current > 0 then (maxChange : ℚ) else -(maxChange : ℚ)))
      + (1 - ALPHA) * (current : ℚ))

/-! ## Motion processor (src/consumer/src/motion.rs)

The estimator works in `f32`; its exact mathematical content uses square
roots and trigonometric functions, so this part of the embedding lives in
`ℝ`.  Branch conditions on reals use classical decidability. -/

open Classical

noncomputable section

/-- One decoded sample, the twelve fields of the `ImuData` protobuf message
(floats in `ℝ`, `i32` rates in `ℤ`, `u32` timestamps in `ℕ`). -/
structure ImuData where
  x_acc : ℝ
  y_acc : ℝ
  z_acc : ℝ
  timestamp_acc : ℕ
  x_gyro : ℤ
  y_gyro : ℤ
  z_gyro : ℤ
  timestamp_gyro : ℕ
  x_mag : ℝ
  y_mag : ℝ
  z_mag : ℝ
  timestamp_mag : ℕ

/-- `nalgebra::Vector3<f32>`, modelled over `ℝ`. -/
structure V3 where
  x : ℝ
  y : ℝ
  z : ℝ

def V3.zero : V3 := ⟨0, 0, 0⟩

def V3.add (a b : V3) : V3 := ⟨a.x + b.x, a.y + b.y, a.z + b.z⟩

def V3.sub (a b : V3) : V3 := ⟨a.x - b.x, a.y - b.y, a.z - b.z⟩

def V3.scale (a : V3) (c : ℝ) : V3 := ⟨a.x * c, a.y * c, a.z * c⟩

def V3.dot (a b : V3) : ℝ := a.x * b.x + a.y * b.y + a.z * b.z

def V3.cross (a b : V3) : V3 :=
  ⟨a.y * b.z - a.z * b.y, a.z * b.x - a.x * b.z, a.x * b.y - a.y * b.x⟩

/-- `Vector3::norm`: the Euclidean norm. -/
def V3.norm (a : V3) : ℝ := Real.sqrt (a.dot a)

/-- `Vector3::normalize` / `Unit::new_normalize`: division by the norm
(the code only calls it on vectors whose norm it has checked nonzero, or on
already-unit vectors). -/
def V3.normalize (a : V3) : V3 := ⟨a.x / a.norm, a.y / a.norm, a.z / a.norm⟩

/-- `nalgebra::Quaternion<f32>` in `(w, x, y, z)` layout
(`w` the scalar part). -/
structure Quat where
  w : ℝ
  x : ℝ
  y : ℝ
  z : ℝ

/-- `UnitQuaternion::identity()`. -/
def Quat.one : Quat := ⟨1, 0, 0, 0⟩

/-- Hamilton product, the `Mul` of `nalgebra` quaternions. -/
def Quat.mul (p q : Quat) : Quat :=
  ⟨p.w * q.w - p.x * q.x - p.y * q.y - p.z * q.z,
   p.w * q.x + p.x * q.w + p.y * q.z - p.z * q.y,
   p.w * q.y - p.x * q.z + p.y * q.w + p.z * q.x,
   p.w * q.z + p.x * q.y - p.y * q.x + p.z * q.w⟩

def Quat.norm (q : Quat) : ℝ :=
  Real.sqrt (q.w * q.w + q.x * q.x + q.y * q.y + q.z * q.z)

/-- `Quaternion::normalize` (and `Unit::new_normalize` on quaternions):
division by the norm. -/
def Quat.normalize (q : Quat) : Quat :=
  ⟨q.w / q.norm, q.x / q.norm, q.y / q.norm, q.z / q.norm⟩

/-- `UnitQuaternion::from_axis_angle(axis, angle)`:
`(cos(angle/2), sin(angle/2)·axis)`. -/
def Quat.fromAxisAngle (axis : V3) (angle : ℝ) : Quat :=
  ⟨Real.cos (angle / 2), Real.sin (angle / 2) * axis.x,
   Real.sin (angle / 2) * axis.y, Real.sin (angle / 2) * axis.z⟩

/-- `UnitQuaternion * Vector3` (rotation of a vector by a unit quaternion),
as nalgebra computes it: `t = 2·(q_vec × v); v + w·t + q_vec × t`. -/
def Quat.rotateVec (q : Quat) (v : V3) : V3 :=
  let qv : V3 := ⟨q.x, q.y, q.z⟩
  let t := (qv.cross v).scale 2
  (v.add (t.scale q.w)).add (qv.cross t)

/-- `f32::EPSILON`, the `default_epsilon` nalgebra uses inside
`rotation_between` when normalizing the rotation axis. -/
def F32_EPSILON : ℝ := 1 / 8388608

/-- `UnitQuaternion::rotation_between_axis` on two already-normalized
vectors (nalgebra's `scaled_rotation_between_axis` with scale 1): rotate
about the normalized cross product by `acos` of the dot product; when the
cross product is (nearly) zero the vectors are parallel — identity if they
point the same way, `None` (undetermined axis) if opposite. -/
def rotationBetweenAxis (na nb : V3) : Option Quat :=
  if (na.cross nb).norm > F32_EPSILON then
    some (Quat.fromAxisAngle (na.cross nb).normalize (Real.arccos (na.dot nb)))
  else if na.dot nb < 0 then none
  else some Quat.one

/-- `UnitQuaternion::rotation_between(a, b)` (nalgebra's
`scaled_rotation_between` with scale 1): normalize both inputs (identity if
either is zero) and defer to `rotationBetweenAxis`. -/
def rotationBetween (a b : V3) : Option Quat :=
  if a.norm > 0 ∧ b.norm > 0 then rotationBetweenAxis a.normalize b.normalize
  else some Quat.one

/-- `MIN_DELTA_TIME` from motion.rs line 5 (seconds). -/
def MIN_DELTA_TIME : ℝ := 0.001

/-- `MAX_DELTA_TIME` from motion.rs line 6 (seconds). -/
def MAX_DELTA_TIME : ℝ := 0.1

/-- `EPSILON` from motion.rs line 83 (radians). -/
def EPSILON : ℝ := 1e-6

/-- `MotionState` (motion.rs lines 8-15). -/
structure MotionState where
  orientation : Quat
  velocity : V3
  position : V3
  last_acc_timestamp : ℕ
  last_gyro_timestamp : ℕ

/-- `MotionState::default()` (motion.rs lines 17-27): identity orientation,
zero velocity and position, both stored timestamps 0. -/
def MotionState.default : MotionState := ⟨Quat.one, V3.zero, V3.zero, 0, 0⟩

/-- The configuration fields of `MotionProcessor` (motion.rs lines 29-39),
everything except the mutable `MotionState`. -/
structure MotionConfig where
  acc_bias : V3
  gyro_bias : V3
  gyro_weight : ℝ
  acc_weight : ℝ
  velocity_decay : ℝ
  disable_complementary_filter : Bool

/-- `MotionProcessor::new` (motion.rs lines 42-53): zero biases, weights
0.98 / 0.02, velocity decay 0.98, complementary filter enabled. -/
def newProcessor : MotionConfig := ⟨V3.zero, V3.zero, 0.98, 0.02, 0.98, false⟩

/-- `dt_gyro` (motion.rs lines 62-66): saturating timestamp difference in
milliseconds over 1000, or `MIN_DELTA_TIME` when no previous gyro timestamp
is stored (stored value 0). -/
def dtGyro (s : MotionState) (d : ImuData) : ℝ :=
  if s.last_gyro_timestamp ≠ 0 then
    ((d.timestamp_gyro - s.last_gyro_timestamp : ℕ) : ℝ) / 1000
  else MIN_DELTA_TIME

/-- `dt_acc` (motion.rs lines 146-150), the accelerometer channel analogue
of `dtGyro`. -/
def dtAcc (s : MotionState) (d : ImuData) : ℝ :=
  if s.last_acc_timestamp ≠ 0 then
    ((d.timestamp_acc - s.last_acc_timestamp : ℕ) : ℝ) / 1000
  else MIN_DELTA_TIME

/-- `gyro_vec` (motion.rs lines 74-81): bias-corrected rates converted from
milli-degrees/second to radians/second. -/
def gyroVec (cfg : MotionConfig) (d : ImuData) : V3 :=
  ⟨((d.x_gyro : ℝ) - cfg.gyro_bias.x) * 0.001 * Real.pi / 180,
   ((d.y_gyro : ℝ) - cfg.gyro_bias.y) * 0.001 * Real.pi / 180,
   ((d.z_gyro : ℝ) - cfg.gyro_bias.z) * 0.001 * Real.pi / 180⟩

/-- `angle` (motion.rs line 84): rotation angle this step. -/
def gyroAngle (cfg : MotionConfig) (s : MotionState) (d : ImuData) : ℝ :=
  (gyroVec cfg d).norm * dtGyro s d

/-- `axis` (motion.rs lines 91-95). -/
def gyroAxis (cfg : MotionConfig) (d : ImuData) : V3 :=
  if (gyroVec cfg d).norm > EPSILON then (gyroVec cfg d).normalize else ⟨1, 0, 0⟩

/-- `gyro_quat` (motion.rs lines 97-98): the incremental rotation, built
from `Unit::new_normalize(axis)` and the step angle. -/
def gyroQuat (cfg : MotionConfig) (s : MotionState) (d : ImuData) : Quat :=
  Quat.fromAxisAngle (gyroAxis cfg d).normalize (gyroAngle cfg s d)

/-- `gyro_orientation` (motion.rs line 100): right-compose the incremental
rotation onto the current orientation. -/
def gyroOrientation (cfg : MotionConfig) (s : MotionState) (d : ImuData) : Quat :=
  s.orientation.mul (gyroQuat cfg s d)

/-- `acc_vec` (motion.rs lines 109-113): bias-corrected accelerometer
reading in milli-g. -/
def accVec (cfg : MotionConfig) (d : ImuData) : V3 :=
  ⟨d.x_acc - cfg.acc_bias.x, d.y_acc - cfg.acc_bias.y, d.z_acc - cfg.acc_bias.z⟩

/-- `acc_magnitude` (motion.rs line 115). -/
def accMagnitude (cfg : MotionConfig) (d : ImuData) : ℝ :=
  (accVec cfg d).norm

/-- `acc_quat` (motion.rs lines 117-124): the shortest rotation taking the
normalized world gravity vector `(0,0,1)` onto the normalized accelerometer
vector, identity when nalgebra cannot determine it. -/
def accQuat (cfg : MotionConfig) (d : ImuData) : Quat :=
  (rotationBetween (V3.normalize ⟨0, 0, 1⟩)
      (V3.normalize ((accVec cfg d).scale (accMagnitude cfg d)⁻¹))).getD Quat.one

/-- The complementary-filter blend (motion.rs lines 126-138): component-wise
weighted sum of the gyro-predicted orientation and `acc_quat`, normalized by
`Quaternion::normalize` and again by `UnitQuaternion::from_quaternion`. -/
def blendedOrientation (cfg : MotionConfig) (s : MotionState) (d : ImuData) : Quat :=
  Quat.normalize (Quat.normalize
    ⟨cfg.gyro_weight * (gyroOrientation cfg s d).w + cfg.acc_weight * (accQuat cfg d).w,
     cfg.gyro_weight * (gyroOrientation cfg s d).x + cfg.acc_weight * (accQuat cfg d).x,
     cfg.gyro_weight * (gyroOrientation cfg s d).y + cfg.acc_weight * (accQuat cfg d).y,
     cfg.gyro_weight * (gyroOrientation cfg s d).z + cfg.acc_weight * (accQuat cfg d).z⟩)

/-- `MotionProcessor::update_orientation` (motion.rs lines 61-143).  The
stored gyro timestamp is always advanced; the orientation update is skipped
for a stale delta (`dt_gyro > MAX_DELTA_TIME`) or an insignificant angle
(`angle < EPSILON`); otherwise the gyro-predicted orientation is used
verbatim when the complementary filter is disabled or the accelerometer
magnitude is outside the (exclusive) 950..1050 milli-g band, and the
normalized blend is used inside the band. -/
def updateOrientation (cfg : MotionConfig) (s : MotionState) (d : ImuData) :
    MotionState :=
  let s1 := { s with last_gyro_timestamp := d.timestamp_gyro }
  if dtGyro s d > MAX_DELTA_TIME then s1
  else if gyroAngle cfg s d < EPSILON then s1
  else if cfg.disable_complementary_filter then
    { s1 with orientation := gyroOrientation cfg s d }
  else if 950 < accMagnitude cfg d ∧ accMagnitude cfg d < 1050 then
    { s1 with orientation := blendedOrientation cfg s d }
  else
    { s1 with orientation := gyroOrientation cfg s d }

/-- `acc_body` (motion.rs lines 158-162): bias-corrected acceleration
converted from milli-g to m/s². -/
def accBody (cfg : MotionConfig) (d : ImuData) : V3 :=
  ⟨(d.x_acc - cfg.acc_bias.x) * 9.81 / 1000,
   (d.y_acc - cfg.acc_bias.y) * 9.81 / 1000,
   (d.z_acc - cfg.acc_bias.z) * 9.81 / 1000⟩

/-- The dead-zone filter applied per component (motion.rs lines 169-171):
zero out accelerations below the 0.01 m/s² threshold. -/
def deadZone (a : ℝ) : ℝ := if |a| < 0.01 then 0 else a

/-- `MotionProcessor::update_velocity_and_position` (motion.rs lines
145-176).  The stored accelerometer timestamp is always advanced; for a
stale delta the rest is skipped; otherwise rotate the body-frame
acceleration into the world frame with the current orientation, remove
gravity, dead-zone, integrate velocity (with decay) and position. -/
def updateVelocityAndPosition (cfg : MotionConfig) (s : MotionState)
    (d : ImuData) : MotionState :=
  let s1 := { s with last_acc_timestamp := d.timestamp_acc }
  if dtAcc s d > MAX_DELTA_TIME then s1
  else
    let accWorld := s.orientation.rotateVec (accBody cfg d)
    let accWorldNoGravity := accWorld.sub ⟨0, 0, 9.81⟩
    let filteredAcc : V3 :=
      ⟨deadZone accWorldNoGravity.x, deadZone accWorldNoGravity.y,
       deadZone accWorldNoGravity.z⟩
    let v1 := (s.velocity.add (filteredAcc.scale (dtAcc s d))).scale cfg.velocity_decay
    { s1 with velocity := v1, position := s.position.add (v1.scale (dtAcc s d)) }

/-- `MotionProcessor::process` (motion.rs lines 55-59): orientation update
followed by the velocity/position update on the resulting state. -/
def process (cfg : MotionConfig) (s : MotionState) (d : ImuData) :
    MotionState :=
  updateVelocityAndPosition cfg (updateOrientation cfg s d) d

/-! Concrete states and samples used in closed statements. -/

/-- A running (both channels seeded at 1000 ms) state at the origin. -/
def staleState : MotionState := ⟨Quat.one, V3.zero, V3.zero, 1000, 1000⟩

/-- An all-zero sample stamped 2000 ms on every channel: one second after
`staleState`, beyond the 0.1 s staleness bound. -/
def staleData : ImuData := ⟨0, 0, 0, 2000, 0, 0, 0, 2000, 0, 0, 0, 2000⟩

/-- A first sample: 1000 milli-g along x, zero rates, fresh timestamps. -/
def firstData : ImuData := ⟨1000, 0, 0, 777, 0, 0, 0, 888, 0, 0, 0, 0⟩

/-- A sample stamped 0 on every channel (before `staleState`'s stored
timestamps, and equal to the unseeded marker). -/
def backData : ImuData := ⟨0, 0, 0, 0, 0, 0, 0, 0, 0, 0, 0, 0⟩

/-- An unseeded state together with a sample whose accelerometer magnitude is
exactly 950 milli-g and whose gyro rate of 180000000 milli-degrees/second
along x gives a rotation angle of exactly π radians over the first-sample
delta time 0.001 s. -/
def boundaryData : ImuData := ⟨0, 0, 950, 50, 180000000, 0, 0, 50, 0, 0, 0, 50⟩

/-- Like `boundaryData` but with accelerometer magnitude 1000 milli-g,
strictly inside the correction band. -/
def insideBandData : ImuData := ⟨0, 0, 1000, 50, 180000000, 0, 0, 50, 0, 0, 0, 50⟩

end

/-! # Theorems

## Shared framing lemmas -/

theorem beU32_beBytes (n : ℕ) (h : n < 2 ^ 32) :
    beU32 (n / 2 ^ 24 % 256) (n / 2 ^ 16 % 256) (n / 2 ^ 8 % 256) (n % 256) = n := by
  unfold beU32
  omega

theorem readLoop_small {α : Type} (decode : List ℕ → Option α) (bytes : List ℕ)
    (h : bytes.length < 4) : readLoop decode bytes = ([], ExitStatus.cleanEof) := by
  match bytes with
  | [] => simp [readLoop]
  | [b0] => simp [readLoop]
  | [b0, b1] => simp [readLoop]
  | [b0, b1, b2] => simp [readLoop]
  | b0 :: b1 :: b2 :: b3 :: rest => simp at h; omega

theorem readLoop_cons {α : Type} (decode : List ℕ → Option α) (b0 b1 b2 b3 : ℕ)
    (rest : List ℕ) :
    readLoop decode (b0 :: b1 :: b2 :: b3 :: rest) =
      if beU32 b0 b1 b2 b3 = 0 then
        readLoop decode rest
      else if rest.length < beU32 b0 b1 b2 b3 then
        ([], ExitStatus.truncatedFrame)
      else
        match decode (rest.take (beU32 b0 b1 b2 b3)) with
        | some sample =>
          let r := readLoop decode (rest.drop (beU32 b0 b1 b2 b3))
          (sample :: r.1, r.2)
        | none => readLoop decode (rest.drop (beU32 b0 b1 b2 b3)) := by
  conv_lhs => rw [readLoop]

theorem beBytes_zero : beBytes 0 = [0, 0, 0, 0] := by
  simp [beBytes]

theorem readLoop_zeroFrame {α : Type} (decode : List ℕ → Option α) (rest : List ℕ) :
    readLoop decode (beBytes 0 ++ rest) = readLoop decode rest := by
  rw [beBytes_zero]
  simp only [List.cons_append, List.nil_append]
  rw [readLoop_cons]
  rw [if_pos (show beU32 0 0 0 0 = 0 by decide)]

theorem readLoop_frame {α : Type} (decode : List ℕ → Option α) (p rest : List ℕ)
    (h32 : p.length < 2 ^ 32) (hpos : 0 < p.length) :
    readLoop decode (beBytes p.length ++ p ++ rest) =
      match decode p with
      | some sample => (sample :: (readLoop decode rest).1, (readLoop decode rest).2)
      | none => readLoop decode rest := by
  have hbe := beU32_beBytes p.length h32
  simp only [beBytes, List.cons_append, List.nil_append, List.append_assoc]
  rw [readLoop_cons, hbe]
  rw [if_neg (by omega)]
  rw [if_neg (by simp only [List.length_append]; omega)]
  rw [List.take_left, List.drop_left]

theorem specEndsInLengthField_cons (b0 b1 b2 b3 : ℕ) (rest : List ℕ) :
    specEndsInLengthField (b0 :: b1 :: b2 :: b3 :: rest) =
      (if beU32 b0 b1 b2 b3 = 0 then
        specEndsInLengthField rest
      else if rest.length < beU32 b0 b1 b2 b3 then
        false
      else
        specEndsInLengthField (rest.drop (beU32 b0 b1 b2 b3))) := by
  conv_lhs => rw [specEndsInLengthField]

/-! ## Claim theorems for the transport -/

/-- **C5 (amended).**  The read loop terminates with success exactly when the
input byte stream ends while a 4-byte length field is being read — i.e. with
0 to 3 bytes of the next length field present, not only with exactly zero
(tokio's `read_u32` reports `UnexpectedEof` in all four cases and
`Consumer::run` treats that error kind as a clean close); an end-of-stream in
the middle of reading a non-zero-length payload terminates the loop with an
error, distinct from the clean case. -/
theorem readLoop_status_iff_ends_in_length_field {α : Type}
    (decode : List ℕ → Option α) : ∀ bytes : List ℕ,
    (readLoop decode bytes).2 =
      (if specEndsInLengthField bytes then ExitStatus.cleanEof
       else ExitStatus.truncatedFrame) := by
  suffices h : ∀ (n : ℕ) (bytes : List ℕ), bytes.length = n →
      (readLoop decode bytes).2 =
        (if specEndsInLengthField bytes then ExitStatus.cleanEof
         else ExitStatus.truncatedFrame) by
    intro bytes
    exact h bytes.length bytes rfl
  intro n
  induction n using Nat.strong_induction_on with
  | _ n ih =>
    intro bytes hn
    match bytes with
    | [] => simp [readLoop, specEndsInLengthField]
    | [b0] => simp [readLoop, specEndsInLengthField]
    | [b0, b1] => simp [readLoop, specEndsInLengthField]
    | [b0, b1, b2] => simp [readLoop, specEndsInLengthField]
    | b0 :: b1 :: b2 :: b3 :: rest =>
      simp only [List.length_cons] at hn
      rw [readLoop_cons, specEndsInLengthField_cons]
      by_cases h0 : beU32 b0 b1 b2 b3 = 0
      · rw [if_pos h0, if_pos h0]
        exact ih rest.length (by omega) rest rfl
      · rw [if_neg h0, if_neg h0]
        by_cases hshort : rest.length < beU32 b0 b1 b2 b3
        · rw [if_pos hshort, if_pos hshort]
          simp
        · rw [if_neg hshort, if_neg hshort]
          have hdrop := ih (rest.drop (beU32 b0 b1 b2 b3)).length
            (by simp only [List.length_drop]; omega)
            (rest.drop (beU32 b0 b1 b2 b3)) rfl
          cases hd : decode (rest.take (beU32 b0 b1 b2 b3)) <;> simp [hd, hdrop]

/-- **C5 (counterexample).**  A stream consisting of the single stray byte
`0x00` does not end at a frame boundary (one byte of a next length field was
consumed), yet the read loop terminates with success: the claim's "exactly
when ... zero bytes of a next 4-byte length prefix consumed" is false. -/
theorem readLoop_clean_on_partial_length_field :
    (readLoop sampleDecode [0]).2 = ExitStatus.cleanEof ∧
    specEndsAtBoundary [0] = false := by
  constructor
  · rw [readLoop_small sampleDecode [0] (by simp)]
  · simp [specEndsAtBoundary]

/-- **C7.**  A byte stream made of a 4-byte zero length prefix, then one
validly framed decodable sample (non-empty payload `p` of in-range length,
`decode p = some s`), then end-of-stream: the loop skips the zero-length
frame without consuming payload bytes, hands exactly the one sample `s` to
the motion processor, and terminates normally. -/
theorem zero_length_frame_skip {α : Type} (decode : List ℕ → Option α)
    (p : List ℕ) (s : α) (h32 : p.length < 2 ^ 32) (hpos : 0 < p.length)
    (hdec : decode p = some s) :
    readLoop decode (beBytes 0 ++ (beBytes p.length ++ p)) =
      ([s], ExitStatus.cleanEof) := by
  rw [readLoop_zeroFrame]
  have := readLoop_frame decode p [] h32 hpos
  rw [List.append_nil] at this
  rw [this, hdec, readLoop_small decode [] (by simp)]

/-- Witness for `zero_length_frame_skip` at a concrete stream: payload `[7]`
decoded by `sampleDecode` to the sample `99`. -/
theorem zero_length_frame_skip_witness :
    ([7] : List ℕ).length < 2 ^ 32 ∧ 0 < ([7] : List ℕ).length ∧
      sampleDecode [7] = some 99 ∧
      readLoop sampleDecode (beBytes 0 ++ (beBytes ([7] : List ℕ).length ++ [7])) =
        ([99], ExitStatus.cleanEof) :=
  ⟨by norm_num, by norm_num, by decide,
    zero_length_frame_skip sampleDecode [7] 99 (by norm_num) (by norm_num) (by decide)⟩

/-- **C8.**  A frame whose payload fails to decode does not terminate the
loop and hands nothing to the motion processor: the loop continues at the
next length field exactly as if the frame were absent (first conjunct); in
particular a garbage-length-prefixed frame followed by one valid frame
yields exactly one decoded sample and a normal termination (second
conjunct). -/
theorem undecodable_frame_skipped {α : Type} (decode : List ℕ → Option α)
    (g p : List ℕ) (s : α) (hg32 : g.length < 2 ^ 32) (hp32 : p.length < 2 ^ 32)
    (hppos : 0 < p.length) (hgdec : decode g = none) (hpdec : decode p = some s) :
    (∀ rest : List ℕ, readLoop decode (beBytes g.length ++ g ++ rest) =
      readLoop decode rest) ∧
    readLoop decode (beBytes g.length ++ g ++ (beBytes p.length ++ p)) =
      ([s], ExitStatus.cleanEof) := by
  have hskip : ∀ rest : List ℕ,
      readLoop decode (beBytes g.length ++ g ++ rest) = readLoop decode rest := by
    intro rest
    rcases Nat.eq_zero_or_pos g.length with hg0 | hgpos
    · have hg : g = [] := List.eq_nil_of_length_eq_zero hg0
      subst hg
      simp only [List.length_nil, List.append_nil]
      exact readLoop_zeroFrame decode rest
    · rw [readLoop_frame decode g rest hg32 hgpos, hgdec]
  refine ⟨hskip, ?_⟩
  rw [hskip]
  have := readLoop_frame decode p [] hp32 hppos
  rw [List.append_nil] at this
  rw [this, hpdec, readLoop_small decode [] (by simp)]

/-- Witness for `undecodable_frame_skipped` at a concrete stream: garbage
payload `[1, 2]` (rejected by `sampleDecode`) followed by the valid frame
over payload `[7]`. -/
theorem undecodable_frame_skipped_witness :
    ([1, 2] : List ℕ).length < 2 ^ 32 ∧ ([7] : List ℕ).length < 2 ^ 32 ∧
      0 < ([7] : List ℕ).length ∧ sampleDecode [1, 2] = none ∧
      sampleDecode [7] = some 99 ∧
      readLoop sampleDecode
          (beBytes ([1, 2] : List ℕ).length ++ [1, 2] ++
            (beBytes ([7] : List ℕ).length ++ [7])) =
        ([99], ExitStatus.cleanEof) :=
  ⟨by norm_num, by norm_num, by norm_num, by decide, by decide,
    (undecodable_frame_skipped sampleDecode [1, 2] [7] 99 (by norm_num) (by norm_num)
      (by norm_num) (by decide) (by decide)).2⟩

/-! ## Claim theorems for configuration and the write side -/

/-- **C1 (code bug).**  `Consumer::new` applies `Duration::from_secs` to the
CLI timeout value, which clap validates against the millisecond range
`1..=60000` and whose default `DEFAULT_TIMEOUT` is the string "1000"
documented as milliseconds (and printed as "{}ms").  The connect attempt is
therefore bounded by `1000 * t` milliseconds instead of the claimed `t`
milliseconds: with the default 1000, by 1000 seconds instead of one
second. -/
theorem consumer_timeout_unit_bug :
    consumerConnectBoundMillis DEFAULT_TIMEOUT = 1000000 ∧
    consumerConnectBoundMillis DEFAULT_TIMEOUT ≠ DEFAULT_TIMEOUT := by
  decide

theorem publishData_false_cons (c : ℕ) (rest : List Bool) :
    publishData c (false :: rest) =
      if c + 1 ≥ MAX_CONSECUTIVE_ERRORS then Except.error IoErrorKind.brokenPipe
      else publishData (c + 1) rest := rfl

/-- **C4 (counterexample).**  Five consecutive send failures already abort
the connection (`consecutive_errors >= MAX_CONSECUTIVE_ERRORS` fires when
the incremented counter reaches 5), so the claim that a 5-failure run is
still retried and only a 6th failure aborts is false; four consecutive
failures leave the loop running. -/
theorem fifth_failure_aborts :
    publishData 0 (List.replicate 5 false) = Except.error IoErrorKind.brokenPipe ∧
    publishData 0 (List.replicate 4 false) = Except.ok 4 :=
  ⟨rfl, rfl⟩

/-- **C4 (amended).**  Each send failure triggers a backoff-and-retry for up
to 4 consecutive failures; the 5th consecutive failure
(`MAX_CONSECUTIVE_ERRORS`) aborts the current connection with a
`BrokenPipe` ("Connection broken") error, on which the outer `run` loop
resumes accepting a new connection rather than terminating the process; any
successful send resets the consecutive-failure count to zero. -/
theorem publish_retry_policy :
    (∀ (c : ℕ) (rest : List Bool), publishData c (true :: rest) = publishData 0 rest) ∧
    (∀ (c : ℕ) (rest : List Bool), c + 1 < MAX_CONSECUTIVE_ERRORS →
      publishData c (false :: rest) = publishData (c + 1) rest) ∧
    (∀ (c : ℕ) (rest : List Bool), MAX_CONSECUTIVE_ERRORS ≤ c + 1 →
      publishData c (false :: rest) = Except.error IoErrorKind.brokenPipe) ∧
    runReaction (Except.error IoErrorKind.brokenPipe) = RunAction.acceptNew ∧
    (∀ (k c : ℕ), c < MAX_CONSECUTIVE_ERRORS →
      publishData c (List.replicate k false) =
        (if c + k < MAX_CONSECUTIVE_ERRORS then Except.ok (c + k)
         else Except.error IoErrorKind.brokenPipe)) := by
  refine ⟨fun c rest => rfl, ?_, ?_, rfl, ?_⟩
  · intro c rest h
    rw [publishData_false_cons,
      if_neg (by simp only [MAX_CONSECUTIVE_ERRORS] at h ⊢; omega)]
  · intro c rest h
    rw [publishData_false_cons,
      if_pos (by simp only [MAX_CONSECUTIVE_ERRORS] at h ⊢; omega)]
  · intro k
    induction k with
    | zero =>
      intro c hc
      rw [List.replicate_zero, Nat.add_zero, if_pos hc]
      rfl
    | succ k ih =>
      intro c hc
      rw [List.replicate_succ, publishData_false_cons]
      by_cases habort : c + 1 ≥ MAX_CONSECUTIVE_ERRORS
      · rw [if_pos habort,
          if_neg (by simp only [MAX_CONSECUTIVE_ERRORS] at habort ⊢; omega)]
      · rw [if_neg habort,
          ih (c + 1) (by simp only [MAX_CONSECUTIVE_ERRORS] at habort ⊢; omega)]
        have harith : c + 1 + k = c + (k + 1) := by omega
        rw [harith]

/-! ## Emulator helper lemmas and claim C9 -/

theorem truncQ_int_add (z : ℤ) (q : ℚ) :
    truncQ ((z : ℚ) + q) = z + ⌊q⌋ ∨ truncQ ((z : ℚ) + q) = z + ⌈q⌉ := by
  unfold truncQ
  split_ifs with h
  · left
    rw [Int.floor_int_add]
  · right
    rw [add_comm ((z : ℚ)) q, Int.ceil_add_int, add_comm]

theorem truncQ_int_add_bound (z m : ℤ) (q : ℚ) (h1 : -(m : ℚ) ≤ q)
    (h2 : q ≤ (m : ℚ)) : |truncQ ((z : ℚ) + q) - z| ≤ m := by
  have hf1 : -m ≤ ⌊q⌋ := by
    have h3 : ((-m : ℤ) : ℚ) ≤ q := by push_cast; linarith
    have h4 := Int.floor_le_floor h3
    rwa [Int.floor_intCast] at h4
  have hf2 : ⌊q⌋ ≤ m := by
    have h4 := Int.floor_le_floor h2
    rwa [Int.floor_intCast] at h4
  have hc1 : -m ≤ ⌈q⌉ := by
    have h3 : ((-m : ℤ) : ℚ) ≤ q := by push_cast; linarith
    have h4 := Int.ceil_le_ceil h3
    rwa [Int.ceil_intCast] at h4
  have hc2 : ⌈q⌉ ≤ m := by
    have h4 := Int.ceil_le_ceil h2
    rwa [Int.ceil_intCast] at h4
  rcases truncQ_int_add z q with hcase | hcase <;>
    rw [hcase, add_sub_cancel_left, abs_le] <;> exact ⟨by omega, by omega⟩

/-- **C9.**  The emulator's move-toward-target step: it returns the target
when within `max_change` of it; otherwise it returns the `ALPHA`-blend
`0.7 * (current + step) + 0.3 * current` with `step = +max_change` when the
target is above the current value and `-max_change` when below; in every
case the result moves away from `current` by at most `max_change`.  Both the
float variant and the integer variant (the latter up to the `as i32`
truncation toward zero) are covered. -/
theorem move_toward_target_step (c t m : ℚ) (ci ti mi : ℤ)
    (hm : 0 < m) (hmi : 0 < mi) :
    (|t - c| ≤ m → moveTowardTargetFloat c t m = t) ∧
    (m < |t - c| → moveTowardTargetFloat c t m =
      7 / 10 * (c + (if c < t then m else -m)) + 3 / 10 * c) ∧
    |moveTowardTargetFloat c t m - c| ≤ m ∧
    (|ti - ci| ≤ mi → moveTowardTargetInt ci ti mi = ti) ∧
    (mi < |ti - ci| → moveTowardTargetInt ci ti mi =
      truncQ (7 / 10 * ((ci : ℚ) + (if ci < ti then (mi : ℚ) else -(mi : ℚ)))
        + 3 / 10 * (ci : ℚ))) ∧
    |moveTowardTargetInt ci ti mi - ci| ≤ mi := by
  have hmq : (0 : ℚ) < (mi : ℚ) := by exact_mod_cast hmi
  refine ⟨?_, ?_, ?_, ?_, ?_, ?_⟩
  · intro h
    unfold moveTowardTargetFloat
    rw [if_pos h]
  · intro h
    unfold moveTowardTargetFloat
    rw [if_neg (not_le.mpr h)]
    simp only [gt_iff_lt, sub_pos]
    unfold ALPHA
    norm_num
  · unfold moveTowardTargetFloat
    split_ifs with h1 h2
    · exact h1
    · rw [show ALPHA * (c + m) + (1 - ALPHA) * c - c = 7 / 10 * m by unfold ALPHA; ring]
      rw [abs_of_nonneg (by linarith)]
      linarith
    · rw [show ALPHA * (c + -m) + (1 - ALPHA) * c - c = -(7 / 10 * m) by unfold ALPHA; ring]
      rw [abs_neg, abs_of_nonneg (by linarith)]
      linarith
  · intro h
    unfold moveTowardTargetInt
    rw [if_pos h]
  · intro h
    unfold moveTowardTargetInt
    rw [if_neg (not_le.mpr h)]
    simp only [gt_iff_lt, sub_pos]
    unfold ALPHA
    norm_num
  · unfold moveTowardTargetInt
    split_ifs with h1 h2
    · exact h1
    · rw [show ALPHA * ((ci : ℚ) + (mi : ℚ)) + (1 - ALPHA) * (ci : ℚ) =
          (ci : ℚ) + 7 / 10 * (mi : ℚ) by unfold ALPHA; ring]
      exact truncQ_int_add_bound ci mi _ (by linarith) (by linarith)
    · rw [show ALPHA * ((ci : ℚ) + -(mi : ℚ)) + (1 - ALPHA) * (ci : ℚ) =
          (ci : ℚ) + -(7 / 10 * (mi : ℚ)) by unfold ALPHA; ring]
      exact truncQ_int_add_bound ci mi _ (by linarith) (by linarith)

/-- Witness for `move_toward_target_step`: the concrete inputs of the
repository's own emulator unit tests (float: current 5, target 10, max step
2; int: current 100, target 300, max step 50). -/
theorem move_toward_target_step_witness :
    (0 : ℚ) < 2 ∧ (0 : ℤ) < 50 ∧
      |moveTowardTargetFloat 5 10 2 - 5| ≤ 2 ∧
      |moveTowardTargetInt 100 300 50 - 100| ≤ 50 :=
  ⟨by norm_num, by decide,
    (move_toward_target_step 5 10 2 100 300 50 (by norm_num) (by decide)).2.2.1,
    (move_toward_target_step 5 10 2 100 300 50 (by norm_num) (by decide)).2.2.2.2.2⟩

/-- Witness for `publish_retry_policy` at concrete counters and traces. -/
theorem publish_retry_policy_witness :
    publishData 2 [true] = publishData 0 [] ∧
    (2 + 1 < MAX_CONSECUTIVE_ERRORS ∧ publishData 2 [false] = publishData 3 []) ∧
    (MAX_CONSECUTIVE_ERRORS ≤ 6 + 1 ∧
      publishData 6 [false] = Except.error IoErrorKind.brokenPipe) ∧
    runReaction (Except.error IoErrorKind.brokenPipe) = RunAction.acceptNew ∧
    (3 < MAX_CONSECUTIVE_ERRORS ∧
      publishData 3 (List.replicate 1 false) =
        (if 3 + 1 < MAX_CONSECUTIVE_ERRORS then Except.ok (3 + 1)
         else Except.error IoErrorKind.brokenPipe)) :=
  ⟨publish_retry_policy.1 2 [true],
   ⟨by decide, publish_retry_policy.2.1 2 [] (by decide)⟩,
   ⟨by decide, publish_retry_policy.2.2.1 6 [] (by decide)⟩,
   publish_retry_policy.2.2.2.1,
   ⟨by decide, publish_retry_policy.2.2.2.2 1 3 (by decide)⟩⟩

/-! ## Motion processor helper lemmas -/

theorem updateOrientation_last_gyro (cfg : MotionConfig) (s : MotionState) (d : ImuData) :
    (updateOrientation cfg s d).last_gyro_timestamp = d.timestamp_gyro := by
  unfold updateOrientation
  split_ifs <;> rfl

theorem updateOrientation_preserves (cfg : MotionConfig) (s : MotionState) (d : ImuData) :
    (updateOrientation cfg s d).velocity = s.velocity ∧
    (updateOrientation cfg s d).position = s.position ∧
    (updateOrientation cfg s d).last_acc_timestamp = s.last_acc_timestamp := by
  unfold updateOrientation
  split_ifs <;> exact ⟨rfl, rfl, rfl⟩

theorem updateVelocityAndPosition_last_acc (cfg : MotionConfig) (s : MotionState)
    (d : ImuData) :
    (updateVelocityAndPosition cfg s d).last_acc_timestamp = d.timestamp_acc := by
  unfold updateVelocityAndPosition
  split_ifs <;> rfl

theorem updateVelocityAndPosition_preserves (cfg : MotionConfig) (s : MotionState)
    (d : ImuData) :
    (updateVelocityAndPosition cfg s d).orientation = s.orientation ∧
    (updateVelocityAndPosition cfg s d).last_gyro_timestamp = s.last_gyro_timestamp := by
  unfold updateVelocityAndPosition
  split_ifs <;> exact ⟨rfl, rfl⟩

theorem updateOrientation_stale (cfg : MotionConfig) (s : MotionState) (d : ImuData)
    (h : dtGyro s d > MAX_DELTA_TIME) :
    updateOrientation cfg s d = { s with last_gyro_timestamp := d.timestamp_gyro } := by
  unfold updateOrientation
  rw [if_pos h]

theorem updateVelocityAndPosition_stale (cfg : MotionConfig) (s : MotionState)
    (d : ImuData) (h : dtAcc s d > MAX_DELTA_TIME) :
    updateVelocityAndPosition cfg s d =
      { s with last_acc_timestamp := d.timestamp_acc } := by
  unfold updateVelocityAndPosition
  rw [if_pos h]

theorem dtAcc_updateOrientation (cfg : MotionConfig) (s : MotionState) (d e : ImuData) :
    dtAcc (updateOrientation cfg s d) e = dtAcc s e := by
  unfold dtAcc
  rw [(updateOrientation_preserves cfg s d).2.2]

theorem process_last_gyro (cfg : MotionConfig) (s : MotionState) (d : ImuData) :
    (process cfg s d).last_gyro_timestamp = d.timestamp_gyro := by
  unfold process
  rw [(updateVelocityAndPosition_preserves cfg (updateOrientation cfg s d) d).2,
    updateOrientation_last_gyro]

theorem process_last_acc (cfg : MotionConfig) (s : MotionState) (d : ImuData) :
    (process cfg s d).last_acc_timestamp = d.timestamp_acc := by
  unfold process
  rw [updateVelocityAndPosition_last_acc]

/-! ## Claim theorems for the motion processor -/

/-- **C6.**  For a gyro delta exceeding `MAX_DELTA_TIME` (0.1 s), `process`
leaves the orientation unchanged and only advances the stored gyro
timestamp; likewise for an accelerometer delta exceeding 0.1 s, `process`
leaves velocity and position unchanged and only advances the stored
accelerometer timestamp. -/
theorem stale_delta_skips_update (cfg : MotionConfig) (s : MotionState) (d : ImuData) :
    (dtGyro s d > MAX_DELTA_TIME →
      (process cfg s d).orientation = s.orientation ∧
      (process cfg s d).last_gyro_timestamp = d.timestamp_gyro) ∧
    (dtAcc s d > MAX_DELTA_TIME →
      (process cfg s d).velocity = s.velocity ∧
      (process cfg s d).position = s.position ∧
      (process cfg s d).last_acc_timestamp = d.timestamp_acc) := by
  constructor
  · intro h
    unfold process
    rw [updateOrientation_stale cfg s d h]
    have hp := updateVelocityAndPosition_preserves cfg
      { s with last_gyro_timestamp := d.timestamp_gyro } d
    exact ⟨hp.1, hp.2⟩
  · intro h
    unfold process
    have hd : dtAcc (updateOrientation cfg s d) d > MAX_DELTA_TIME := by
      rw [dtAcc_updateOrientation]
      exact h
    rw [updateVelocityAndPosition_stale cfg _ d hd]
    have hp := updateOrientation_preserves cfg s d
    exact ⟨hp.1, hp.2.1, rfl⟩

/-- Witness for `stale_delta_skips_update`: a state seeded at 1000 ms on
both channels and a sample stamped 2000 ms, giving a delta of 1 s on each
channel. -/
theorem stale_delta_skips_update_witness :
    dtGyro staleState staleData > MAX_DELTA_TIME ∧
    dtAcc staleState staleData > MAX_DELTA_TIME ∧
    ((process newProcessor staleState staleData).orientation = staleState.orientation ∧
      (process newProcessor staleState staleData).last_gyro_timestamp =
        staleData.timestamp_gyro) ∧
    ((process newProcessor staleState staleData).velocity = staleState.velocity ∧
      (process newProcessor staleState staleData).position = staleState.position ∧
      (process newProcessor staleState staleData).last_acc_timestamp =
        staleData.timestamp_acc) := by
  have hg : dtGyro staleState staleData > MAX_DELTA_TIME := by
    norm_num [dtGyro, MAX_DELTA_TIME, staleState, staleData]
  have ha : dtAcc staleState staleData > MAX_DELTA_TIME := by
    norm_num [dtAcc, MAX_DELTA_TIME, staleState, staleData]
  exact ⟨hg, ha,
    (stale_delta_skips_update newProcessor staleState staleData).1 hg,
    (stale_delta_skips_update newProcessor staleState staleData).2 ha⟩

/-- **C2 (amended).**  The first sample on a channel (stored timestamp 0)
seeds that channel's stored timestamp, and the update runs with the fixed
minimum delta time `MIN_DELTA_TIME` = 0.001 s — it does not leave the rest
of the state unchanged in general (see the counterexample). -/
theorem first_sample_seeds_with_min_dt (cfg : MotionConfig) (s : MotionState)
    (d : ImuData) :
    (s.last_gyro_timestamp = 0 →
      dtGyro s d = MIN_DELTA_TIME ∧
      (process cfg s d).last_gyro_timestamp = d.timestamp_gyro) ∧
    (s.last_acc_timestamp = 0 →
      dtAcc s d = MIN_DELTA_TIME ∧
      (process cfg s d).last_acc_timestamp = d.timestamp_acc) := by
  constructor
  · intro h
    refine ⟨?_, process_last_gyro cfg s d⟩
    unfold dtGyro
    rw [if_neg (by simp [h])]
  · intro h
    refine ⟨?_, process_last_acc cfg s d⟩
    unfold dtAcc
    rw [if_neg (by simp [h])]

/-- **C2 (counterexample).**  On the very first sample (both stored
timestamps 0) carrying 1000 milli-g along x, `process` does not only seed
the timestamps: the velocity changes (the accelerometer integration runs
with dt = 0.001 s), so "seeds its timestamp without otherwise updating
state" is false. -/
theorem first_sample_updates_state :
    MotionState.default.last_gyro_timestamp = 0 ∧
    MotionState.default.last_acc_timestamp = 0 ∧
    (process newProcessor MotionState.default firstData).velocity ≠
      MotionState.default.velocity := by
  refine ⟨rfl, rfl, ?_⟩
  intro hcontra
  have hx := congrArg V3.x hcontra
  norm_num [process, updateOrientation, updateVelocityAndPosition, dtGyro, dtAcc,
    gyroAngle, gyroVec, V3.norm, V3.dot, V3.cross, V3.add, V3.sub, V3.scale,
    Quat.rotateVec, Quat.one, accBody, deadZone, MotionState.default, firstData,
    newProcessor, V3.zero, MIN_DELTA_TIME, MAX_DELTA_TIME, EPSILON, abs_lt,
    Real.sqrt_zero] at hx

/-- **C10.**  The stored-timestamp value 0 is the unseeded marker: a sample
carrying channel timestamp 0 reverts that channel to unseeded, so the next
sample on the channel is processed with the fixed `MIN_DELTA_TIME` = 0.001 s
regardless of the true gap; and a sample whose channel timestamp is below
the stored one yields delta time 0 through the saturating subtraction —
never a panic or a huge interval — and is therefore not rejected by the
`> MAX_DELTA_TIME` staleness test. -/
theorem timestamp_zero_and_backwards (cfg : MotionConfig) (s : MotionState)
    (d : ImuData) :
    (d.timestamp_gyro = 0 →
      (process cfg s d).last_gyro_timestamp = 0 ∧
      ∀ e : ImuData, dtGyro (process cfg s d) e = MIN_DELTA_TIME) ∧
    (s.last_gyro_timestamp ≠ 0 → d.timestamp_gyro < s.last_gyro_timestamp →
      dtGyro s d = 0 ∧ ¬ dtGyro s d > MAX_DELTA_TIME) ∧
    (d.timestamp_acc = 0 →
      (process cfg s d).last_acc_timestamp = 0 ∧
      ∀ e : ImuData, dtAcc (process cfg s d) e = MIN_DELTA_TIME) ∧
    (s.last_acc_timestamp ≠ 0 → d.timestamp_acc < s.last_acc_timestamp →
      dtAcc s d = 0 ∧ ¬ dtAcc s d > MAX_DELTA_TIME) := by
  refine ⟨?_, ?_, ?_, ?_⟩
  · intro h
    have hl : (process cfg s d).last_gyro_timestamp = 0 := by
      rw [process_last_gyro, h]
    exact ⟨hl, fun e => by unfold dtGyro; rw [if_neg (by simp [hl])]⟩
  · intro h hlt
    have hsub : (d.timestamp_gyro - s.last_gyro_timestamp : ℕ) = 0 :=
      Nat.sub_eq_zero_of_le (le_of_lt hlt)
    have hval : dtGyro s d = 0 := by
      unfold dtGyro
      rw [if_pos h, hsub]
      norm_num
    exact ⟨hval, by rw [hval]; norm_num [MAX_DELTA_TIME]⟩
  · intro h
    have hl : (process cfg s d).last_acc_timestamp = 0 := by
      rw [process_last_acc, h]
    exact ⟨hl, fun e => by unfold dtAcc; rw [if_neg (by simp [hl])]⟩
  · intro h hlt
    have hsub : (d.timestamp_acc - s.last_acc_timestamp : ℕ) = 0 :=
      Nat.sub_eq_zero_of_le (le_of_lt hlt)
    have hval : dtAcc s d = 0 := by
      unfold dtAcc
      rw [if_pos h, hsub]
      norm_num
    exact ⟨hval, by rw [hval]; norm_num [MAX_DELTA_TIME]⟩

/-- Witness for `timestamp_zero_and_backwards`: the seeded `staleState`
(stored timestamps 1000) and the all-zero-timestamp sample `backData`. -/
theorem timestamp_zero_and_backwards_witness :
    backData.timestamp_gyro = 0 ∧ backData.timestamp_acc = 0 ∧
    staleState.last_gyro_timestamp ≠ 0 ∧
    backData.timestamp_gyro < staleState.last_gyro_timestamp ∧
    staleState.last_acc_timestamp ≠ 0 ∧
    backData.timestamp_acc < staleState.last_acc_timestamp ∧
    (process newProcessor staleState backData).last_gyro_timestamp = 0 ∧
    dtGyro staleState backData = 0 ∧
    (process newProcessor staleState backData).last_acc_timestamp = 0 ∧
    dtAcc staleState backData = 0 := by
  have h1 : staleState.last_gyro_timestamp ≠ 0 := by norm_num [staleState]
  have h2 : backData.timestamp_gyro < staleState.last_gyro_timestamp := by
    norm_num [staleState, backData]
  have h3 : staleState.last_acc_timestamp ≠ 0 := by norm_num [staleState]
  have h4 : backData.timestamp_acc < staleState.last_acc_timestamp := by
    norm_num [staleState, backData]
  exact ⟨rfl, rfl, h1, h2, h3, h4,
    ((timestamp_zero_and_backwards newProcessor staleState backData).1 rfl).1,
    ((timestamp_zero_and_backwards newProcessor staleState backData).2.1 h1 h2).1,
    ((timestamp_zero_and_backwards newProcessor staleState backData).2.2.1 rfl).1,
    ((timestamp_zero_and_backwards newProcessor staleState backData).2.2.2 h3 h4).1⟩

/-- Witness for `first_sample_seeds_with_min_dt`: the unseeded default state
and the sample `firstData`. -/
theorem first_sample_seeds_with_min_dt_witness :
    MotionState.default.last_gyro_timestamp = 0 ∧
    MotionState.default.last_acc_timestamp = 0 ∧
    dtGyro MotionState.default firstData = MIN_DELTA_TIME ∧
    (process newProcessor MotionState.default firstData).last_gyro_timestamp =
      firstData.timestamp_gyro ∧
    dtAcc MotionState.default firstData = MIN_DELTA_TIME ∧
    (process newProcessor MotionState.default firstData).last_acc_timestamp =
      firstData.timestamp_acc :=
  ⟨rfl, rfl,
    ((first_sample_seeds_with_min_dt newProcessor MotionState.default firstData).1 rfl).1,
    ((first_sample_seeds_with_min_dt newProcessor MotionState.default firstData).1 rfl).2,
    ((first_sample_seeds_with_min_dt newProcessor MotionState.default firstData).2 rfl).1,
    ((first_sample_seeds_with_min_dt newProcessor MotionState.default firstData).2 rfl).2⟩

/-! ## Vector and quaternion computation lemmas -/

theorem V3.norm_xaxis (a : ℝ) (h : 0 ≤ a) : V3.norm ⟨a, 0, 0⟩ = a := by
  unfold V3.norm V3.dot
  rw [show a * a + 0 * 0 + 0 * 0 = a * a by ring, Real.sqrt_mul_self h]

theorem V3.norm_zaxis (a : ℝ) (h : 0 ≤ a) : V3.norm ⟨0, 0, a⟩ = a := by
  unfold V3.norm V3.dot
  rw [show 0 * 0 + 0 * 0 + a * a = a * a by ring, Real.sqrt_mul_self h]

theorem V3.normalize_xaxis (a : ℝ) (h : 0 < a) : V3.normalize ⟨a, 0, 0⟩ = ⟨1, 0, 0⟩ := by
  unfold V3.normalize
  rw [V3.norm_xaxis a h.le]
  simp [V3.mk.injEq, div_self h.ne']

theorem V3.normalize_zaxis (a : ℝ) (h : 0 < a) : V3.normalize ⟨0, 0, a⟩ = ⟨0, 0, 1⟩ := by
  unfold V3.normalize
  rw [V3.norm_zaxis a h.le]
  simp [V3.mk.injEq, div_self h.ne']

theorem quat_one_mul (q : Quat) : Quat.one.mul q = q := by
  rcases q with ⟨w, x, y, z⟩
  unfold Quat.mul Quat.one
  simp only [Quat.mk.injEq]
  exact ⟨by ring, by ring, by ring, by ring⟩

theorem rotationBetween_zaxis_self :
    rotationBetween ⟨0, 0, 1⟩ ⟨0, 0, 1⟩ = some Quat.one := by
  have hn : V3.norm ⟨0, 0, 1⟩ = 1 := V3.norm_zaxis 1 (by norm_num)
  unfold rotationBetween
  rw [if_pos ⟨by rw [hn]; norm_num, by rw [hn]; norm_num⟩]
  rw [V3.normalize_zaxis 1 one_pos]
  unfold rotationBetweenAxis
  have hcross : V3.cross ⟨0, 0, 1⟩ ⟨0, 0, 1⟩ = ⟨0, 0, 0⟩ := by
    norm_num [V3.cross, V3.mk.injEq]
  rw [hcross]
  rw [if_neg (by rw [V3.norm_zaxis 0 le_rfl]; norm_num [F32_EPSILON])]
  rw [if_neg (by norm_num [V3.dot])]

/-! ## Claim C3: the complementary-filter correction band -/

theorem gyroVec_pi_x (d : ImuData) (hx : d.x_gyro = 180000000) (hy : d.y_gyro = 0)
    (hz : d.z_gyro = 0) : gyroVec newProcessor d = ⟨1000 * Real.pi, 0, 0⟩ := by
  unfold gyroVec newProcessor
  rw [hx, hy, hz]
  norm_num [V3.zero, V3.mk.injEq]
  ring

theorem dtGyro_default (d : ImuData) : dtGyro MotionState.default d = MIN_DELTA_TIME := by
  unfold dtGyro
  rw [if_neg (by simp [MotionState.default])]

theorem gyroAngle_pi (d : ImuData) (hx : d.x_gyro = 180000000) (hy : d.y_gyro = 0)
    (hz : d.z_gyro = 0) :
    gyroAngle newProcessor MotionState.default d = Real.pi := by
  unfold gyroAngle
  rw [gyroVec_pi_x d hx hy hz, dtGyro_default,
    V3.norm_xaxis (1000 * Real.pi) (by positivity)]
  unfold MIN_DELTA_TIME
  ring_nf

theorem gyroAngle_pi_not_small (d : ImuData) (hx : d.x_gyro = 180000000)
    (hy : d.y_gyro = 0) (hz : d.z_gyro = 0) :
    ¬ gyroAngle newProcessor MotionState.default d < EPSILON := by
  rw [gyroAngle_pi d hx hy hz]
  intro hlt
  have := Real.pi_gt_three
  norm_num [EPSILON] at hlt
  linarith

theorem dtGyro_default_not_stale (d : ImuData) :
    ¬ dtGyro MotionState.default d > MAX_DELTA_TIME := by
  rw [dtGyro_default]
  norm_num [MIN_DELTA_TIME, MAX_DELTA_TIME]

theorem gyroQuat_pi_x (d : ImuData) (hx : d.x_gyro = 180000000) (hy : d.y_gyro = 0)
    (hz : d.z_gyro = 0) :
    gyroQuat newProcessor MotionState.default d = ⟨0, 1, 0, 0⟩ := by
  unfold gyroQuat gyroAxis
  rw [gyroVec_pi_x d hx hy hz, gyroAngle_pi d hx hy hz,
    V3.norm_xaxis (1000 * Real.pi) (by positivity)]
  rw [if_pos (by norm_num [EPSILON]; nlinarith [Real.pi_gt_three])]
  rw [V3.normalize_xaxis (1000 * Real.pi) (by positivity), V3.normalize_xaxis 1 one_pos]
  unfold Quat.fromAxisAngle
  norm_num [Quat.mk.injEq, Real.cos_pi_div_two, Real.sin_pi_div_two]

theorem gyroOrientation_pi_x (d : ImuData) (hx : d.x_gyro = 180000000)
    (hy : d.y_gyro = 0) (hz : d.z_gyro = 0) :
    gyroOrientation newProcessor MotionState.default d = ⟨0, 1, 0, 0⟩ := by
  unfold gyroOrientation
  rw [show MotionState.default.orientation = Quat.one from rfl,
    gyroQuat_pi_x d hx hy hz, quat_one_mul]

theorem accMagnitude_boundary : accMagnitude newProcessor boundaryData = 950 := by
  have hv : accVec newProcessor boundaryData = ⟨0, 0, 950⟩ := by
    norm_num [accVec, newProcessor, boundaryData, V3.zero, V3.mk.injEq]
  unfold accMagnitude
  rw [hv, V3.norm_zaxis 950 (by norm_num)]

theorem accQuat_boundary : accQuat newProcessor boundaryData = Quat.one := by
  have hv : accVec newProcessor boundaryData = ⟨0, 0, 950⟩ := by
    norm_num [accVec, newProcessor, boundaryData, V3.zero, V3.mk.injEq]
  unfold accQuat
  rw [accMagnitude_boundary, hv]
  have hscale : V3.scale ⟨0, 0, 950⟩ (950 : ℝ)⁻¹ = ⟨0, 0, 1⟩ := by
    norm_num [V3.scale, V3.mk.injEq]
  rw [hscale, V3.normalize_zaxis 1 one_pos, rotationBetween_zaxis_self]
  rfl

/-- **C3 (amended).**  With the complementary filter enabled
(`MotionProcessor::new`'s configuration) and the orientation update not
otherwise skipped, the accelerometer correction is applied exactly when the
bias-corrected accelerometer magnitude lies strictly inside the open band
(950, 1050) milli-g: inside, the new orientation is the component-wise blend
`0.98 * gyro_predicted + 0.02 * gravity_alignment` renormalized to unit
length; at the boundary or outside, the gyro-predicted orientation is kept
unmodified. -/
theorem complementary_correction_band (s : MotionState) (d : ImuData)
    (hdt : ¬ dtGyro s d > MAX_DELTA_TIME)
    (hangle : ¬ gyroAngle newProcessor s d < EPSILON) :
    (950 < accMagnitude newProcessor d ∧ accMagnitude newProcessor d < 1050 →
      (updateOrientation newProcessor s d).orientation =
        blendedOrientation newProcessor s d) ∧
    (¬ (950 < accMagnitude newProcessor d ∧ accMagnitude newProcessor d < 1050) →
      (updateOrientation newProcessor s d).orientation =
        gyroOrientation newProcessor s d) := by
  constructor
  · intro hband
    unfold updateOrientation
    rw [if_neg hdt, if_neg hangle, if_neg (by norm_num [newProcessor]), if_pos hband]
  · intro hband
    unfold updateOrientation
    rw [if_neg hdt, if_neg hangle, if_neg (by norm_num [newProcessor]), if_neg hband]

/-- **C3 (counterexample).**  At accelerometer magnitude exactly 950 milli-g
— inside the claim's inclusive band `[950, 1050]` — with the orientation
update not otherwise skipped, the code keeps the gyro-predicted orientation
(`motion.rs` line 116 tests `> 950.0 && < 1050.0`, strictly), and the
gyro-predicted orientation differs from the blend the claim requires, so the
claim is false at this input. -/
theorem boundary_magnitude_keeps_gyro :
    (950 ≤ accMagnitude newProcessor boundaryData ∧
      accMagnitude newProcessor boundaryData ≤ 1050) ∧
    ¬ dtGyro MotionState.default boundaryData > MAX_DELTA_TIME ∧
    ¬ gyroAngle newProcessor MotionState.default boundaryData < EPSILON ∧
    (updateOrientation newProcessor MotionState.default boundaryData).orientation =
      gyroOrientation newProcessor MotionState.default boundaryData ∧
    gyroOrientation newProcessor MotionState.default boundaryData ≠
      blendedOrientation newProcessor MotionState.default boundaryData := by
  have hdt := dtGyro_default_not_stale boundaryData
  have hangle := gyroAngle_pi_not_small boundaryData rfl rfl rfl
  have hgo := gyroOrientation_pi_x boundaryData rfl rfl rfl
  refine ⟨⟨by rw [accMagnitude_boundary], by rw [accMagnitude_boundary]; norm_num⟩,
    hdt, hangle, ?_, ?_⟩
  · unfold updateOrientation
    rw [if_neg hdt, if_neg hangle, if_neg (by norm_num [newProcessor]),
      if_neg (by rw [accMagnitude_boundary]; norm_num)]
  · have hblend : blendedOrientation newProcessor MotionState.default boundaryData =
        Quat.normalize (Quat.normalize ⟨0.02, 0.98, 0, 0⟩) := by
      unfold blendedOrientation
      rw [hgo, accQuat_boundary]
      norm_num [newProcessor, Quat.one, Quat.mk.injEq]
    have hn1 : (0 : ℝ) < Quat.norm ⟨0.02, 0.98, 0, 0⟩ := by
      unfold Quat.norm
      apply Real.sqrt_pos.mpr
      norm_num
    have hw1 : (0 : ℝ) < (Quat.normalize ⟨0.02, 0.98, 0, 0⟩).w :=
      div_pos (by norm_num) hn1
    have hn2 : (0 : ℝ) < Quat.norm (Quat.normalize ⟨0.02, 0.98, 0, 0⟩) := by
      have hx1 := hw1
      unfold Quat.normalize Quat.norm at hx1 ⊢
      apply Real.sqrt_pos.mpr
      nlinarith [sq_nonneg ((0.98 : ℝ) / Real.sqrt (0.02 * 0.02 + 0.98 * 0.98 + 0 * 0 + 0 * 0)),
        sq_nonneg ((0 : ℝ) / Real.sqrt (0.02 * 0.02 + 0.98 * 0.98 + 0 * 0 + 0 * 0))]
    have hw2 : (0 : ℝ) < (Quat.normalize (Quat.normalize ⟨0.02, 0.98, 0, 0⟩)).w :=
      div_pos hw1 hn2
    rw [hgo, hblend]
    intro heq
    rw [← heq] at hw2
    norm_num at hw2

/-- Witness for `complementary_correction_band`: the unseeded default state
with a sample of accelerometer magnitude 1000 milli-g (strictly inside the
band) and a gyro rate giving the step angle π. -/
theorem complementary_correction_band_witness :
    ¬ dtGyro MotionState.default insideBandData > MAX_DELTA_TIME ∧
    ¬ gyroAngle newProcessor MotionState.default insideBandData < EPSILON ∧
    (950 < accMagnitude newProcessor insideBandData ∧
      accMagnitude newProcessor insideBandData < 1050) ∧
    (updateOrientation newProcessor MotionState.default insideBandData).orientation =
      blendedOrientation newProcessor MotionState.default insideBandData := by
  have hdt := dtGyro_default_not_stale insideBandData
  have hangle := gyroAngle_pi_not_small insideBandData rfl rfl rfl
  have hmag : accMagnitude newProcessor insideBandData = 1000 := by
    have hv : accVec newProcessor insideBandData = ⟨0, 0, 1000⟩ := by
      norm_num [accVec, newProcessor, insideBandData, V3.zero, V3.mk.injEq]
    unfold accMagnitude
    rw [hv, V3.norm_zaxis 1000 (by norm_num)]
  have hband : 950 < accMagnitude newProcessor insideBandData ∧
      accMagnitude newProcessor insideBandData < 1050 := by
    rw [hmag]; norm_num
  exact ⟨hdt, hangle, hband,
    (complementary_correction_band MotionState.default insideBandData hdt hangle).1 hband⟩

end ImuRs
